import Mathlib

/-!
Verification development for the chat-server connection lifecycle manager
(`src/app/chat/consumers.py`, class `ChatConsumer`).

The Python source is shallowly embedded as executable Lean definitions:

* `receive` models `ChatConsumer.receive` (lines 159-195) as a pure function
  over a pre-parsed inbound frame (`Option Json`; `none` stands for a frame on
  which `json.loads` raises `JSONDecodeError`).
* A small labelled transition system (`SysState`, `stepAct`, `runActs`) models
  the process-wide lifecycle: `connect`, `disconnect`, the heartbeat loop,
  `graceful_shutdown`, the Django cache used by `get_cached_session` /
  `cache_session` (an expiring key-value store with a 300 second TTL), and the
  relevant metric counters.  Each atomic step returns the successor state and
  the list of observable events (frames sent, close codes, cache reads/writes,
  heartbeat publishes, metric observations).

Two Python attribute-semantics details are modelled faithfully because the
source depends on them:

* `ChatConsumer.heartbeat_task` is declared as a class attribute (line 45) but
  line 92 assigns `self.heartbeat_task`, which creates an *instance*
  attribute on the single consumer that started the task.  The class
  attribute is never assigned anywhere, so `cls.heartbeat_task` (line 243)
  and `self.heartbeat_task` on every other consumer (line 139) always read
  `None`.  The model therefore gives each connection its own `hbRef` field
  and keeps a `clsHbTask` field that is never written.
* Python truthiness in `if self.session_id and self.message_count > 0`
  (line 125): an empty session string is falsy, a generated `uuid4` string is
  never empty (`sessionTruthy`).
-/

/-- Parsed JSON values, the result of a successful `json.loads`. -/
inductive Json where
  | null : Json
  | bool (b : Bool) : Json
  | num (n : Int) : Json
  | str (s : String) : Json
  | arr (xs : List Json) : Json
  | obj (fields : List (String × Json)) : Json

/-- Python `dict.get` on the dict produced by `json.loads`: with duplicate
keys the last binding wins. -/
def pyDictGet (fields : List (String × Json)) (key : String) : Option Json :=
  (fields.reverse.find? (fun p => p.1 == key)).map (fun p => p.2)

/-- Python `len` on a JSON value: defined for strings, lists and dicts,
raises `TypeError` (modelled as `none`) on `None`, booleans and numbers. -/
def jsonLen : Json → Option Nat
  | Json.str s => some s.length
  | Json.arr xs => some xs.length
  | Json.obj fields => some fields.length
  | _ => none

/-- Outbound frames sent by `receive`. -/
inductive OutFrame where
  | count (n : Nat) : OutFrame
  | errInvalid : OutFrame
  | errInternal : OutFrame
  deriving DecidableEq, Repr

/-- Error-counter labels used by `websocket_errors.labels(...)` in `receive`. -/
inductive ErrKind where
  | invalid_json : ErrKind
  | receive_error : ErrKind
  deriving DecidableEq, Repr

/-- Result of one `receive` call: the new `message_count`, the outbound frames
in send order, the error-counter increments, and whether the handler closed
the connection (`receive` never does). -/
structure RecvResult where
  count : Nat
  frames : List OutFrame
  errs : List ErrKind
  closed : Bool
  deriving DecidableEq, Repr

/-- `ChatConsumer.receive` (consumers.py lines 159-195).

`frame = none`: `json.loads` raised, so the `JSONDecodeError` branch replies
`{"error": "Invalid JSON"}` and the count is untouched.

`frame = some (obj fields)`: `data.get('message', '')` succeeds, the count is
incremented, `{"count": n}` is sent; afterwards the `logger.debug` call
evaluates `len(message)` — if the `message` value has no `len` (number, bool,
null) this raises `TypeError` inside the `try`, landing in the generic
`except Exception` branch, which additionally sends
`{"error": "Internal error"}` and bumps the `receive_error` counter.  The
already-performed increment and count reply are not rolled back.

`frame = some (non-object)`: `data.get` raises `AttributeError` at line 164,
before the increment, so the generic branch replies
`{"error": "Internal error"}` with the count unchanged. -/
def receive (messageCount : Nat) (frame : Option Json) : RecvResult :=
  match frame with
  | none => ⟨messageCount, [OutFrame.errInvalid], [ErrKind.invalid_json], false⟩
  | some (Json.obj fields) =>
      let message := (pyDictGet fields "message").getD (Json.str "")
      match jsonLen message with
      | some _ =>
          ⟨messageCount + 1, [OutFrame.count (messageCount + 1)], [], false⟩
      | none =>
          ⟨messageCount + 1,
           [OutFrame.count (messageCount + 1), OutFrame.errInternal],
           [ErrKind.receive_error], false⟩
  | some _ => ⟨messageCount, [OutFrame.errInternal], [ErrKind.receive_error], false⟩

/-- Feed a list of inbound frames to `receive` in order, threading the count
and concatenating the replies. -/
def receiveSeq (c : Nat) : List (Option Json) → Nat × List OutFrame
  | [] => (c, [])
  | f :: fs =>
      let r := receive c f
      let rest := receiveSeq r.count fs
      (rest.1, r.frames ++ rest.2)

/-- A frame is well-formed when it is a JSON object whose `message` value (if
any) supports `len` — the shape `{"message": <string>}` of §6 qualifies. -/
def isWellFormed : Option Json → Bool
  | some (Json.obj fields) =>
      match pyDictGet fields "message" with
      | some v => (jsonLen v).isSome
      | none => true
  | _ => false

/-- Number of frames in a list that parse as JSON at all. -/
def countParsed : List (Option Json) → Nat
  | [] => 0
  | none :: fs => countParsed fs
  | some _ :: fs => countParsed fs + 1

/-- The reply sequence the spec promises: successive `{count:k}` replies for
parsed frames, `{error:"Invalid JSON"}` for unparseable ones. -/
def expectedReplies (c : Nat) : List (Option Json) → List OutFrame
  | [] => []
  | none :: fs => OutFrame.errInvalid :: expectedReplies c fs
  | some _ :: fs => OutFrame.count (c + 1) :: expectedReplies (c + 1) fs

/-- A connection's session identifier: adopted from the `session_uuid` query
parameter (lines 69-70) or generated by `uuid.uuid4()` (line 78). -/
inductive SessionId where
  | supplied (s : String) : SessionId
  | generated (cid : Nat) : SessionId
  deriving DecidableEq, Repr

/-- Python truthiness of `self.session_id` (line 125): the empty string is
falsy; a `uuid.uuid4()` string is never empty. -/
def sessionTruthy : SessionId → Bool
  | SessionId.supplied s => !s.isEmpty
  | SessionId.generated _ => true

/-- The Django cache as used by `get_cached_session` / `cache_session`: an
association list of key, value and absolute expiry time, newest entry first
(a `set` overwrites by shadowing). -/
abbrev Cache := List (SessionId × Nat × Nat)

/-- `cache.get(key)` at time `now`: the newest entry for the key, provided it
has not expired; an expired or missing key is absent, never an error. -/
def cacheGet (cache : Cache) (key : SessionId) (now : Nat) : Option Nat :=
  match cache.find? (fun e => e.1 == key) with
  | some e => if now < e.2.2 then some e.2.1 else none
  | none => none

/-- `cache.set(key, count, timeout=300)` at time `now` (line 285). -/
def cacheSet (cache : Cache) (key : SessionId) (val : Nat) (now : Nat) : Cache :=
  (key, val, now + 300) :: cache

/-- Per-connection state (`ChatConsumer` instance attributes). `hbRef` is the
*instance* attribute `self.heartbeat_task`: `none` models both "never
assigned" (reads fall through to the never-assigned class attribute, i.e.
`None`) and an explicit `self.heartbeat_task = None`. -/
structure ConnSt where
  sessionId : Option SessionId
  messageCount : Nat
  hbRef : Option Nat
  gracefulClose : Bool
  deriving DecidableEq, Repr

/-- Where a heartbeat-loop task currently is. `loopTop` is the `while` test at
line 205 (also the state of a freshly created, not-yet-run task), `sleeping`
is suspension inside `asyncio.sleep(30)` (line 207), `exited` means the
coroutine has returned. -/
inductive HbPhase where
  | loopTop : HbPhase
  | sleeping : HbPhase
  | exited : HbPhase
  deriving DecidableEq, Repr

/-- An `asyncio.Task` running `heartbeat_loop`.  `cancelled = true` means
`cancel()` has been requested; the `CancelledError` is delivered at the
task's next scheduling point, where the `except asyncio.CancelledError`
handler (line 229) breaks out of the loop. -/
structure HbTask where
  phase : HbPhase
  cancelled : Bool
  deriving DecidableEq, Repr

/-- Process-wide state: clock, shutdown flag, active-connections gauge, the
`active_connections` registry (conn id paired with its instance state), the
Django cache, every heartbeat task ever created, the class attribute
`ChatConsumer.heartbeat_task` (assigned nowhere in the source, see module
comment), the next fresh task id, and the `websocket_heartbeats` counter. -/
structure SysState where
  now : Nat
  shutdown : Bool
  gauge : Int
  conns : List (Nat × ConnSt)
  cache : Cache
  tasks : List (Nat × HbTask)
  clsHbTask : Option Nat
  nextTid : Nat
  hbCount : Nat

/-- Observable events of one atomic step. -/
inductive Ev where
  | close1001 (cid : Nat) : Ev
  | accept (cid : Nat) : Ev
  | cacheRead (sid : SessionId) : Ev
  | cacheWrite (sid : SessionId) (count : Nat) : Ev
  | hbStart (tid : Nat) : Ev
  | hbCancel (tid : Nat) : Ev
  | publish (tid : Nat) : Ev
  | goodbye (cid : Nat) (total : Nat) (sendOk : Bool) : Ev
  | reply (cid : Nat) (f : OutFrame) : Ev
  | metricShutdown : Ev
  | timeoutError : Ev
  | logDisconnect (cid : Nat) : Ev
  deriving DecidableEq, Repr

/-- Scheduler actions: which handler takes its next atomic step, with the
environment-chosen inputs (query parameter, inbound frame, close code,
whether a best-effort send succeeds, whether all closes finish inside the
9-second budget of line 267). -/
inductive Act where
  | connect (cid : Nat) (sessionUuid : Option String) : Act
  | recv (cid : Nat) (frame : Option Json) : Act
  | disconnect (cid : Nat) (closeCode : Nat) (sendOk : Bool) : Act
  | hbStep (tid : Nat) : Act
  | shutdown (closesWithin9s : Bool) : Act
  | tick (dt : Nat) : Act

/-- Apply `f` to the task with id `tid`. -/
def updateTask (tasks : List (Nat × HbTask)) (tid : Nat) (f : HbTask → HbTask) :
    List (Nat × HbTask) :=
  tasks.map (fun p => if p.1 == tid then (p.1, f p.2) else p)

/-- `task.cancel()`. -/
def cancelTask (tasks : List (Nat × HbTask)) (tid : Nat) : List (Nat × HbTask) :=
  updateTask tasks tid (fun st => ⟨st.phase, true⟩)

/-- Move a task to a new phase. -/
def setPhase (tasks : List (Nat × HbTask)) (tid : Nat) (ph : HbPhase) :
    List (Nat × HbTask) :=
  updateTask tasks tid (fun st => ⟨ph, st.cancelled⟩)

/-- Look up a registered connection. -/
def lookupConn (s : SysState) (cid : Nat) : Option ConnSt :=
  (s.conns.find? (fun p => p.1 == cid)).map (fun p => p.2)

/-- Look up a heartbeat task. -/
def lookupTask (s : SysState) (tid : Nat) : Option HbTask :=
  (s.tasks.find? (fun p => p.1 == tid)).map (fun p => p.2)

/-- Is the task with id `tid` cancelled? -/
def taskCancelled (s : SysState) (tid : Nat) : Bool :=
  match lookupTask s tid with
  | some st => st.cancelled
  | none => false

/-- Lines 124-126: `if self.session_id and self.message_count > 0:
cache_session(...)`.  Note the Python truthiness of the session id. -/
def persistSession (c : ConnSt) (cache : Cache) (now : Nat) : Cache × List Ev :=
  match c.sessionId with
  | some sid =>
      if sessionTruthy sid ∧ 0 < c.messageCount then
        (cacheSet cache sid c.messageCount now, [Ev.cacheWrite sid c.messageCount])
      else (cache, [])
  | none => (cache, [])

/-- Lines 128-136: best-effort goodbye frame, guarded by
`not self.graceful_close and close_code != 1001`; a failed send is swallowed
by the bare `except` (the step function is total and always continues). -/
def goodbyeEvs (cid : Nat) (c : ConnSt) (closeCode : Nat) (sendOk : Bool) :
    List Ev :=
  if ¬c.gracefulClose ∧ closeCode ≠ 1001 then
    [Ev.goodbye cid c.messageCount sendOk]
  else []

/-- Lines 138-141: `if len(self.active_connections) == 0 and
self.heartbeat_task: cancel`.  `self.heartbeat_task` is the *instance*
attribute, i.e. `c.hbRef` — `none` for every consumer except the one that
started the task. -/
def stopHb (connsAfter : List (Nat × ConnSt)) (tasks : List (Nat × HbTask))
    (c : ConnSt) : List (Nat × HbTask) × List Ev :=
  if connsAfter.isEmpty then
    match c.hbRef with
    | some t => (cancelTask tasks t, [Ev.hbCancel t])
    | none => (tasks, [])
  else (tasks, [])

/-- Lines 81-92 of `connect`: accept, add to the registry, bump the gauge,
and start the heartbeat when the registry size just became 1.  At line 91 a
fresh consumer's `self.heartbeat_task` falls through to the never-assigned
class attribute (`None`), so only the length test decides; line 92 then
assigns the new task to the consumer's *instance* attribute (`hbRef`). -/
def acceptConn (s : SysState) (cid : Nat) (sid : SessionId) (cnt : Nat)
    (pre : List Ev) : SysState × List Ev :=
  if s.conns.length + 1 == 1 then
    ({s with conns := s.conns ++ [(cid, ⟨some sid, cnt, some s.nextTid, false⟩)],
             gauge := s.gauge + 1,
             tasks := s.tasks ++ [(s.nextTid, ⟨HbPhase.loopTop, false⟩)],
             nextTid := s.nextTid + 1},
     pre ++ [Ev.accept cid, Ev.hbStart s.nextTid])
  else
    ({s with conns := s.conns ++ [(cid, ⟨some sid, cnt, none, false⟩)],
             gauge := s.gauge + 1},
     pre ++ [Ev.accept cid])

/-- `ChatConsumer.connect` (lines 55-102).  During shutdown (lines 59-62) the
attempt is rejected with close code 1001 before any registration, session
allocation or cache read.  Otherwise the session id is adopted from the
query parameter (with a cache read seeding `message_count`) or freshly
generated, and the connection is accepted and registered.  A `cid` already
in the registry is a modelling guard (connection ids are unique). -/
def connectStep (s : SysState) (cid : Nat) (sessionUuid : Option String) :
    SysState × List Ev :=
  if s.shutdown then (s, [Ev.close1001 cid])
  else if (s.conns.find? (fun p => p.1 == cid)).isSome then (s, [])
  else
    match sessionUuid with
    | some q =>
        let sid := SessionId.supplied q
        let cnt := (cacheGet s.cache sid s.now).getD 0
        acceptConn s cid sid cnt [Ev.cacheRead sid]
    | none => acceptConn s cid (SessionId.generated cid) 0 []

/-- `ChatConsumer.receive` lifted to the system: updates the connection's
count and emits its replies. -/
def recvStep (s : SysState) (cid : Nat) (frame : Option Json) :
    SysState × List Ev :=
  match s.conns.find? (fun p => p.1 == cid) with
  | none => (s, [])
  | some pc =>
      let r := receive pc.2.messageCount frame
      ({s with conns := s.conns.map (fun p =>
          if p.1 == cid then (p.1, {p.2 with messageCount := r.count}) else p)},
       r.frames.map (Ev.reply cid))

/-- `ChatConsumer.disconnect` (lines 109-157): remove from the registry,
decrement the gauge, persist the session, best-effort goodbye, stop the
heartbeat if this consumer holds the task and the registry just emptied,
and log.  The surrounding `try/except` swallows any failure, so the step is
total. -/
def disconnectStep (s : SysState) (cid : Nat) (closeCode : Nat)
    (sendOk : Bool) : SysState × List Ev :=
  match s.conns.find? (fun p => p.1 == cid) with
  | none => (s, [])
  | some pc =>
      let c := pc.2
      let conns' := s.conns.filter (fun p => p.1 != cid)
      let pcache := persistSession c s.cache s.now
      let gevs := goodbyeEvs cid c closeCode sendOk
      let ptasks := stopHb conns' s.tasks c
      ({s with conns := conns', gauge := s.gauge - 1,
               cache := pcache.1, tasks := ptasks.1},
       pcache.2 ++ gevs ++ ptasks.2 ++ [Ev.logDisconnect cid])

/-- One scheduling slice of `heartbeat_loop` (lines 202-232).  A pending
cancellation is delivered first and breaks the loop without publishing.  At
`loopTop` the `while` condition of line 205 is evaluated; at `sleeping` the
30-second wait has elapsed: line 209 re-checks the shutdown flag and only
then (atomically with respect to the event loop — lines 209-225 contain no
intervening suspension before the publish) publishes `{"ts": ...}` to the
broadcast group and increments the heartbeat counter. -/
def hbStepFn (s : SysState) (tid : Nat) : SysState × List Ev :=
  match lookupTask s tid with
  | none => (s, [])
  | some st =>
      if st.cancelled then ({s with tasks := setPhase s.tasks tid HbPhase.exited}, [])
      else
        match st.phase with
        | HbPhase.exited => (s, [])
        | HbPhase.loopTop =>
            if ¬s.conns.isEmpty ∧ ¬s.shutdown then
              ({s with tasks := setPhase s.tasks tid HbPhase.sleeping}, [])
            else ({s with tasks := setPhase s.tasks tid HbPhase.exited}, [])
        | HbPhase.sleeping =>
            if s.shutdown then
              ({s with tasks := setPhase s.tasks tid HbPhase.exited}, [])
            else
              ({s with tasks := setPhase s.tasks tid HbPhase.loopTop,
                       hbCount := s.hbCount + 1},
               [Ev.publish tid])

/-- `ChatConsumer.graceful_shutdown` (lines 234-273).  Sets the shutdown
flag; checks `cls.heartbeat_task` — the class attribute, assigned nowhere,
hence the model's never-written `clsHbTask`; marks every registered
consumer `graceful_close = True`, sends it a goodbye frame and requests
`close(code=1001)`; then, if any close was requested, awaits them under the
9-second `asyncio.wait_for` budget.  The `wait_for` call is not wrapped in
`try/except`: if the budget elapses, `asyncio.TimeoutError` propagates and
the metric observation and completion log of lines 270-273 are skipped.
There is no re-entry guard anywhere in the function. -/
def gracefulShutdownStep (s : SysState) (closesWithin9s : Bool) :
    SysState × List Ev :=
  let s1 := {s with shutdown := true}
  let cancelled :=
    match s1.clsHbTask with
    | some t => (cancelTask s1.tasks t, [Ev.hbCancel t])
    | none => (s1.tasks, [])
  let conns' := s1.conns.map (fun p => (p.1, {p.2 with gracefulClose := true}))
  let evs1 := s1.conns.map (fun p => Ev.goodbye p.1 p.2.messageCount true)
  let evs2 := s1.conns.map (fun p => Ev.close1001 p.1)
  let evs3 :=
    if s1.conns.isEmpty then [Ev.metricShutdown]
    else if closesWithin9s then [Ev.metricShutdown] else [Ev.timeoutError]
  ({s1 with tasks := cancelled.1, conns := conns'},
   cancelled.2 ++ evs1 ++ evs2 ++ evs3)

/-- Dispatch one atomic step. -/
def stepAct (s : SysState) : Act → SysState × List Ev
  | Act.connect cid q => connectStep s cid q
  | Act.recv cid f => recvStep s cid f
  | Act.disconnect cid code ok => disconnectStep s cid code ok
  | Act.hbStep tid => hbStepFn s tid
  | Act.shutdown b => gracefulShutdownStep s b
  | Act.tick dt => ({s with now := s.now + dt}, [])

/-- Run a schedule, collecting all events in order. -/
def runActs (s : SysState) : List Act → SysState × List Ev
  | [] => (s, [])
  | a :: acts =>
      let r := stepAct s a
      let rest := runActs r.1 acts
      (rest.1, r.2 ++ rest.2)

/-- Process start: empty registry, no tasks, flag clear. -/
def initState : SysState :=
  ⟨0, false, 0, [], [], [], none, 0, 0⟩

/-- Is a JSON value an object? -/
def isObj : Json → Bool
  | Json.obj _ => true
  | _ => false

/-- Is an event a heartbeat publish? -/
def isPublishEv : Ev → Bool
  | Ev.publish _ => true
  | _ => false

/-- Is an event a session-cache write? -/
def isCacheWriteEv : Ev → Bool
  | Ev.cacheWrite _ _ => true
  | _ => false

/-- Is an event a goodbye frame? -/
def isGoodbyeEv : Ev → Bool
  | Ev.goodbye _ _ _ => true
  | _ => false

/-- Tasks that are alive: not cancelled and not yet exited. -/
def aliveTasks (s : SysState) : List (Nat × HbTask) :=
  s.tasks.filter (fun p => !p.2.cancelled && !(p.2.phase == HbPhase.exited))

/-- Schedule refuting C4: A and B connect (A's connect starts heartbeat task
0 and stores it in A's instance attribute), A disconnects (registry not yet
empty, no stop), B disconnects (registry empties, but B's
`self.heartbeat_task` is `None`, so no cancel), then C connects (registry
size 1 again, C's `self.heartbeat_task` is `None`, so task 1 starts while
task 0 is still alive). -/
def actsC4 : List Act :=
  [Act.connect 0 none, Act.connect 1 none,
   Act.disconnect 0 1000 true, Act.disconnect 1 1000 true,
   Act.connect 2 none]

/-- `actsC4` followed by scheduling both heartbeat loops through a full
sleep-and-publish cycle each. -/
def actsC4ext : List Act :=
  actsC4 ++ [Act.hbStep 0, Act.hbStep 1, Act.hbStep 0, Act.hbStep 1]

/-- Schedule refuting C5 via `graceful_shutdown`: one connection whose
connect started heartbeat task 0, then shutdown. -/
def actsC5 : List Act := [Act.connect 0 none, Act.shutdown true]

/-- Schedule refuting C5 via disconnect: the registry 1-to-0 transition is
performed by consumer 1, which did not start the heartbeat task. -/
def actsC5b : List Act :=
  [Act.connect 0 none, Act.connect 1 none,
   Act.disconnect 0 1000 true, Act.disconnect 1 1000 true]

/-- Schedule refuting C7's catch-and-log half: one open connection whose
requested close does not finish inside the 9-second budget. -/
def actsC7 : List Act := [Act.connect 0 none, Act.shutdown false]

/-- Schedule refuting C2's unconditional write-iff: the client supplies an
empty `session_uuid` value, so `self.session_id` is the falsy `""` and the
write at line 125 is skipped although the count is 1. -/
def actsC2cx : List Act :=
  [Act.connect 0 (some ""),
   Act.recv 0 (some (Json.obj [("message", Json.str "x")])),
   Act.disconnect 0 1000 true]

/-- A state in shutdown mode, for witnesses. -/
def demoShutdownState : SysState :=
  ⟨0, true, 0, [], [], [], none, 0, 0⟩

/-- A state whose heartbeat task 0 was cancelled while suspended in its
30-second sleep, for witnesses. -/
def demoCancelledState : SysState :=
  ⟨0, false, 1, [(0, ⟨some (SessionId.generated 0), 2, some 0, false⟩)], [],
   [(0, ⟨HbPhase.sleeping, true⟩)], none, 1, 0⟩

/-- A registered connection with two counted messages, for witnesses. -/
def demoConn : ConnSt := ⟨some (SessionId.generated 3), 2, none, false⟩

/-- A state holding `demoConn` under connection id 3, for witnesses. -/
def demoConnState : SysState :=
  ⟨0, false, 1, [(3, demoConn)], [], [], none, 0, 0⟩

/-- Helper: a `find?` that already succeeds on the front list is unchanged by
appending. -/
theorem find?_append_left {α : Type} (l₁ l₂ : List α) (p : α → Bool)
    (a : α) (h : l₁.find? p = some a) : (l₁ ++ l₂).find? p = some a := by
  rw [List.find?_append, h]; rfl

/-- Helper: a `find?` that fails on the front list continues on the back
list. -/
theorem find?_append_right {α : Type} (l₁ l₂ : List α) (p : α → Bool)
    (h : l₁.find? p = none) : (l₁ ++ l₂).find? p = l₂.find? p := by
  rw [List.find?_append, h]; rfl

/-- Claim C1, counterexample: the frame `5` parses as JSON (`json.loads`
succeeds with the integer 5), yet `receive` neither increments the count nor
replies `{count: ...}` — `data.get` raises `AttributeError` and the generic
handler replies `{"error": "Internal error"}`. -/
theorem C1_json_number_counterexample :
    (receive 5 (some (Json.num 42))).count = 5 ∧
    (receive 5 (some (Json.num 42))).frames = [OutFrame.errInternal] ∧
    OutFrame.count 6 ∉ (receive 5 (some (Json.num 42))).frames := by
  decide

/-- Helper: a well-formed frame takes the clean path of `receive`: increment
by one and a single `{count}` reply. -/
theorem receive_wellFormed (f : Option Json) (h : isWellFormed f = true)
    (c : Nat) :
    receive c f = ⟨c + 1, [OutFrame.count (c + 1)], [], false⟩ := by
  match f with
  | none => simp [isWellFormed] at h
  | some (Json.null) => simp [isWellFormed] at h
  | some (Json.bool b) => simp [isWellFormed] at h
  | some (Json.num n) => simp [isWellFormed] at h
  | some (Json.str s) => simp [isWellFormed] at h
  | some (Json.arr xs) => simp [isWellFormed] at h
  | some (Json.obj fields) =>
      simp only [receive]
      cases hg : pyDictGet fields "message" with
      | none => simp [hg, jsonLen]
      | some v =>
          have h2 : (jsonLen v).isSome = true := by
            simpa [isWellFormed, hg] using h
          obtain ⟨k, hk⟩ := Option.isSome_iff_exists.mp h2
          simp [hg, hk]

/-- Claim C1 (amended): for every open connection and inbound frame — if the
frame parses as a JSON *object*, `receive` increments `messageCount` by
exactly 1 and replies `{count: messageCount}`; if JSON parsing fails,
`receive` replies `{error: "Invalid JSON"}`, the count is unchanged and the
connection remains open.  A connection receiving K well-formed messages in
order gets replies `{count:1}` through `{count:K}`, with interleaved
invalid-JSON frames leaving the count unaffected. -/
theorem C1_receive_counting_amended :
    (∀ (c : Nat) (fields : List (String × Json)),
        (receive c (some (Json.obj fields))).count = c + 1 ∧
        OutFrame.count (c + 1) ∈ (receive c (some (Json.obj fields))).frames ∧
        (receive c (some (Json.obj fields))).closed = false) ∧
    (∀ c : Nat,
        receive c none =
          ⟨c, [OutFrame.errInvalid], [ErrKind.invalid_json], false⟩) ∧
    (∀ (fs : List (Option Json)) (c : Nat),
        (∀ f ∈ fs, isWellFormed f = true ∨ f.isNone = true) →
        receiveSeq c fs = (c + countParsed fs, expectedReplies c fs)) := by
  refine ⟨?_, ?_, ?_⟩
  · intro c fields
    simp only [receive]
    cases hj : jsonLen ((pyDictGet fields "message").getD (Json.str "")) <;>
      simp
  · intro c; rfl
  · intro fs
    induction fs with
    | nil => intro c _; simp [receiveSeq, countParsed, expectedReplies]
    | cons f fs ih =>
        intro c h
        cases f with
        | none =>
            have hrest := ih c (fun g hg => h g (List.mem_cons_of_mem _ hg))
            simp [receiveSeq, receive, countParsed, expectedReplies, hrest]
        | some j =>
            have hwf : isWellFormed (some j) = true := by
              rcases h (some j) (List.mem_cons_self _ _) with h1 | h1
              · exact h1
              · simp at h1
            have hrest := ih (c + 1)
              (fun g hg => h g (List.mem_cons_of_mem _ hg))
            simp [receiveSeq, receive_wellFormed _ hwf, countParsed,
              expectedReplies, hrest]
            omega

/-- Witness for the amended C1 at a concrete three-frame session: two
well-formed messages around one invalid frame give replies
count 1, invalid, count 2 and a final count of 2. -/
theorem C1_receive_counting_amended_witness :
    receiveSeq 0 [some (Json.obj [("message", Json.str "a")]), none,
        some (Json.obj [("message", Json.str "b")])] =
      (2, [OutFrame.count 1, OutFrame.errInvalid, OutFrame.count 2]) := by
  have h := C1_receive_counting_amended.2.2
    [some (Json.obj [("message", Json.str "a")]), none,
      some (Json.obj [("message", Json.str "b")])] 0 (by decide)
  exact h.trans (by decide)

/-- Claim C10: an inbound frame that parses as valid JSON but is not a JSON
object (bare number, string, array, boolean or null) gets the reply
`{"error": "Internal error"}` — not `{"error": "Invalid JSON"}` —
`messageCount` is not incremented, the `receive_error` error counter is
incremented, and the connection stays open: `data.get` raises
`AttributeError` before the increment and the generic `except Exception`
branch handles it. -/
theorem C10_nonobject_internal_error :
    ∀ (c : Nat) (j : Json), isObj j = false →
      receive c (some j) =
        ⟨c, [OutFrame.errInternal], [ErrKind.receive_error], false⟩ := by
  intro c j h
  cases j <;> simp_all [isObj, receive]

/-- Witness for C10 at the bare number 7. -/
theorem C10_nonobject_internal_error_witness :
    receive 3 (some (Json.num 7)) =
      ⟨3, [OutFrame.errInternal], [ErrKind.receive_error], false⟩ :=
  C10_nonobject_internal_error 3 (Json.num 7) rfl

/-- Claim C3: a connect attempt made while the process-wide shutdown flag is
set is closed with code 1001 and has no other effect: the state is
unchanged (no registration, no gauge increment, no session allocation, no
heartbeat start) and the only event is the close — in particular no
SessionStore read occurs. -/
theorem C3_connect_rejected_during_shutdown :
    ∀ (s : SysState) (cid : Nat) (q : Option String), s.shutdown = true →
      connectStep s cid q = (s, [Ev.close1001 cid]) ∧
      (connectStep s cid q).1.conns = s.conns ∧
      (connectStep s cid q).1.gauge = s.gauge ∧
      (connectStep s cid q).1.tasks = s.tasks ∧
      (∀ sid, Ev.cacheRead sid ∉ (connectStep s cid q).2) := by
  intro s cid q h
  simp [connectStep, h]

/-- Witness for C3: a shutdown-mode state rejects connection 7 untouched. -/
theorem C3_connect_rejected_during_shutdown_witness :
    connectStep demoShutdownState 7 (some "abc") =
      (demoShutdownState, [Ev.close1001 7]) :=
  (C3_connect_rejected_during_shutdown demoShutdownState 7 (some "abc") rfl).1

/-- Claim C4, failing schedule (`actsC4`): connects by consumers 0 and 1,
disconnects of both (the second empties the registry but its
`self.heartbeat_task` is `None`, so heartbeat task 0 survives), then a
connect by consumer 2 starts heartbeat task 1.  Two heartbeat scheduler
tasks are then alive simultaneously, and extending the schedule
(`actsC4ext`) lets both loops publish — refuting "at most one heartbeat
scheduler task is active at a time". -/
theorem C4_two_schedulers_alive :
    (aliveTasks (runActs initState actsC4).1).length = 2 ∧
    (runActs initState actsC4).1.tasks =
      [(0, ⟨HbPhase.loopTop, false⟩), (1, ⟨HbPhase.loopTop, false⟩)] ∧
    Ev.publish 0 ∈ (runActs initState actsC4ext).2 ∧
    Ev.publish 1 ∈ (runActs initState actsC4ext).2 := by
  decide

/-- Claim C5, failing runs: after `actsC5` (one connection, then
`graceful_shutdown`) the running heartbeat task is still alive and no
cancel was issued, because `cls.heartbeat_task` — the class attribute — was
never assigned; after `actsC5b` the registry has gone 1 to 0 yet the task
is alive, because the emptying disconnect was performed by the consumer
that did not start the task and its instance attribute is `None`. -/
theorem C5_stop_paths_dead :
    (runActs initState actsC5).1.shutdown = true ∧
    (runActs initState actsC5).1.tasks = [(0, ⟨HbPhase.loopTop, false⟩)] ∧
    Ev.hbCancel 0 ∉ (runActs initState actsC5).2 ∧
    (runActs initState actsC5b).1.conns = [] ∧
    (runActs initState actsC5b).1.tasks = [(0, ⟨HbPhase.loopTop, false⟩)] ∧
    Ev.hbCancel 0 ∉ (runActs initState actsC5b).2 := by
  decide

/-- Claim C7, failing run (`actsC7`): when the bounded 9-second wait elapses
before the requested closes finish, `asyncio.TimeoutError` propagates out
of `graceful_shutdown` (the `wait_for` of line 265 is not wrapped in
`try/except`), so the shutdown-duration metric is never recorded and
completion is never logged — refuting "the timeout is caught and logged". -/
theorem C7_timeout_not_caught :
    Ev.timeoutError ∈ (runActs initState actsC7).2 ∧
    Ev.metricShutdown ∉ (runActs initState actsC7).2 := by
  decide

/-- Claim C8, failing runs: `graceful_shutdown` has no re-entry guard.  A
second invocation while the first's requested closes are still pending
re-sends the goodbye frame, re-issues `close(1001)` and re-records the
shutdown-duration metric; even after a completed shutdown with an empty
registry a second invocation re-records the metric — refuting "re-entry is
a no-op". -/
theorem C8_reentry_not_noop :
    (gracefulShutdownStep
        (runActs initState [Act.connect 0 none, Act.shutdown true]).1 true).2 =
      [Ev.goodbye 0 0 true, Ev.close1001 0, Ev.metricShutdown] ∧
    (gracefulShutdownStep (runActs initState [Act.shutdown true]).1 true).2 =
      [Ev.metricShutdown] := by
  decide

/-- Claim C9: at disconnect with close code different from 1001 and
`graceful_close == False`, the handler attempts the goodbye frame
`{"bye": true, "total": messageCount}` with the connection's final count; a
send failure is swallowed (the step is total and still reaches the
trailing cleanup and structured log); with `graceful_close == True` or
close code 1001 no goodbye frame is sent from disconnect. -/
theorem C9_goodbye_policy :
    ∀ (s : SysState) (cid : Nat) (c : ConnSt) (code : Nat) (ok : Bool),
      s.conns.find? (fun p => p.1 == cid) = some (cid, c) →
      ((c.gracefulClose = false → code ≠ 1001 →
          Ev.goodbye cid c.messageCount ok ∈ (disconnectStep s cid code ok).2 ∧
          Ev.logDisconnect cid ∈ (disconnectStep s cid code ok).2) ∧
       (c.gracefulClose = true ∨ code = 1001 →
          (disconnectStep s cid code ok).2.filter isGoodbyeEv = [])) := by
  intro s cid c code ok hfind
  constructor
  · intro h1 h2
    simp only [disconnectStep, hfind, goodbyeEvs, h1]
    simp [h2, List.mem_append]
  · intro h
    have hg : goodbyeEvs cid c code ok = [] := by
      rcases h with h1 | h1 <;> simp [goodbyeEvs, h1]
    simp only [disconnectStep, hfind, hg]
    rw [List.filter_append, List.filter_append, List.filter_append]
    have hp : (persistSession c s.cache s.now).2.filter isGoodbyeEv = [] := by
      unfold persistSession
      cases c.sessionId with
      | none => rfl
      | some sid =>
          by_cases hc : sessionTruthy sid ∧ 0 < c.messageCount <;>
            simp [hc, isGoodbyeEv]
    have hs : (stopHb (s.conns.filter (fun p => p.1 != cid)) s.tasks c).2.filter
        isGoodbyeEv = [] := by
      unfold stopHb
      by_cases he : (s.conns.filter (fun p => p.1 != cid)).isEmpty
      · cases c.hbRef with
        | none => simp [he]
        | some t => simp [he, isGoodbyeEv]
      · simp [he]
    simp [hp, hs, isGoodbyeEv]

/-- Witness for C9 at a concrete state: a failed goodbye send is swallowed
and the disconnect still logs; with code 1001 no goodbye is emitted. -/
theorem C9_goodbye_policy_witness :
    (Ev.goodbye 3 2 false ∈ (disconnectStep demoConnState 3 1000 false).2 ∧
     Ev.logDisconnect 3 ∈ (disconnectStep demoConnState 3 1000 false).2) ∧
    (disconnectStep demoConnState 3 1001 true).2.filter isGoodbyeEv = [] := by
  refine ⟨?_, ?_⟩
  · exact (C9_goodbye_policy demoConnState 3 demoConn 1000 false (by decide)).1
      rfl (by decide)
  · exact (C9_goodbye_policy demoConnState 3 demoConn 1001 true (by decide)).2
      (Or.inr rfl)

/-- Invariant: every registered connection carries a session identifier
(`connect` always assigns one before registering, lines 67-84). -/
def connsOk (s : SysState) : Prop :=
  ∀ pc ∈ s.conns, pc.2.sessionId.isSome = true

/-- Helper: every atomic step preserves `connsOk`. -/
theorem connsOk_step (s : SysState) (a : Act) (h : connsOk s) :
    connsOk (stepAct s a).1 := by
  cases a with
  | connect cid q =>
      simp only [stepAct, connectStep]
      by_cases hs : s.shutdown = true
      · simp [hs]; exact h
      · simp only [Bool.not_eq_true] at hs
        simp only [hs, if_false]
        by_cases hf : (s.conns.find? (fun p => p.1 == cid)).isSome
        · simp [hf]; exact h
        · simp only [hf, if_false]
          have hacc : ∀ sid cnt pre, connsOk (acceptConn s cid sid cnt pre).1 := by
            intro sid cnt pre
            unfold acceptConn
            split <;>
              · intro pc hpc
                simp only [List.mem_append, List.mem_singleton] at hpc
                rcases hpc with hpc | hpc
                · exact h pc hpc
                · subst hpc; rfl
          cases q with
          | some v => exact hacc _ _ _
          | none => exact hacc _ _ _
  | recv cid f =>
      simp only [stepAct, recvStep]
      cases hf : s.conns.find? (fun p => p.1 == cid) with
      | none => exact h
      | some pc =>
          intro pc' hpc'
          simp only [List.mem_map] at hpc'
          obtain ⟨p, hp, hfp⟩ := hpc'
          subst hfp
          by_cases hid : p.1 == cid <;> simp [hid] <;> exact h p hp
  | disconnect cid code ok =>
      simp only [stepAct, disconnectStep]
      cases hf : s.conns.find? (fun p => p.1 == cid) with
      | none => exact h
      | some pc =>
          intro pc' hpc'
          simp only [List.mem_filter] at hpc'
          exact h pc' hpc'.1
  | hbStep tid =>
      simp only [stepAct, hbStepFn]
      cases hf : lookupTask s tid with
      | none => exact h
      | some st =>
          by_cases hc : st.cancelled = true
          · simp [hc]; exact h
          · simp only [Bool.not_eq_true] at hc
            cases hp : st.phase <;> simp only [hc, hp, Bool.false_eq_true,
              if_false] <;> first
              | exact h
              | (split <;> exact h)
  | shutdown b =>
      simp only [stepAct, gracefulShutdownStep]
      intro pc' hpc'
      simp only [List.mem_map] at hpc'
      obtain ⟨p, hp, hfp⟩ := hpc'
      subst hfp
      exact h p hp
  | tick dt => exact h

/-- Helper: `connsOk` holds along every run from process start. -/
theorem connsOk_run (acts : List Act) : connsOk (runActs initState acts).1 := by
  have h : ∀ s, connsOk s → ∀ acts, connsOk (runActs s acts).1 := by
    intro s hs acts
    induction acts generalizing s with
    | nil => exact hs
    | cons a acts ih => exact ih _ (connsOk_step s a hs)
  exact h initState (by intro pc hpc; cases hpc) acts

/-- Claim C2, counterexample: a client connecting with an *empty*
`session_uuid` query value gets `self.session_id = ""`, which is falsy in
Python, so `if self.session_id and self.message_count > 0` (line 125) skips
the SessionStore write at disconnect even though the count is 1 (the
goodbye frame `{"bye": true, "total": 1}` exhibits the count) — refuting
"a SessionRecord is written if and only if messageCount > 0". -/
theorem C2_empty_session_counterexample :
    (runActs initState actsC2cx).2.filter isCacheWriteEv = [] ∧
    Ev.goodbye 0 1 true ∈ (runActs initState actsC2cx).2 ∧
    Ev.reply 0 (OutFrame.count 1) ∈ (runActs initState actsC2cx).2 := by
  decide

/-- Claim C2 (amended): every open connection has a session identifier; at
disconnect a SessionRecord (sessionId to messageCount, TTL 300 s) is
written if and only if `messageCount > 0` *and* the session identifier is
truthy — both halves universally: a truthy id with a positive count writes
exactly the record, and in every other case (count 0, or a falsy id such
as an empty supplied `session_uuid`, with any count) the cache is unchanged
and no write event occurs; a connection connecting with a supplied session
identifier starts with exactly the cached count when a record exists, and
with 0 when none does; a record written at time `t` is readable with
exactly the stored count strictly before `t + 300` and absent from then
on. -/
theorem C2_session_persistence_amended :
    (∀ (acts : List Act) (cid : Nat) (c : ConnSt),
        lookupConn (runActs initState acts).1 cid = some c →
        c.sessionId.isSome = true) ∧
    (∀ (s : SysState) (cid : Nat) (c : ConnSt) (sid : SessionId)
        (code : Nat) (ok : Bool),
        s.conns.find? (fun p => p.1 == cid) = some (cid, c) →
        c.sessionId = some sid →
        ((sessionTruthy sid = true ∧ 0 < c.messageCount →
            (disconnectStep s cid code ok).1.cache =
              cacheSet s.cache sid c.messageCount s.now ∧
            Ev.cacheWrite sid c.messageCount ∈ (disconnectStep s cid code ok).2) ∧
         (¬(sessionTruthy sid = true ∧ 0 < c.messageCount) →
            (disconnectStep s cid code ok).1.cache = s.cache ∧
            (disconnectStep s cid code ok).2.filter isCacheWriteEv = []))) ∧
    (∀ (s : SysState) (cid : Nat) (q : String),
        s.shutdown = false →
        s.conns.find? (fun p => p.1 == cid) = none →
        (lookupConn (connectStep s cid (some q)).1 cid).map ConnSt.sessionId =
          some (some (SessionId.supplied q)) ∧
        (lookupConn (connectStep s cid (some q)).1 cid).map ConnSt.messageCount =
          some ((cacheGet s.cache (SessionId.supplied q) s.now).getD 0)) ∧
    (∀ (cache : Cache) (sid : SessionId) (v t now : Nat),
        cacheGet (cacheSet cache sid v t) sid now =
          if now < t + 300 then some v else none) := by
  refine ⟨?_, ?_, ?_, ?_⟩
  · intro acts cid c hl
    simp only [lookupConn, Option.map_eq_some'] at hl
    obtain ⟨p, hp, hpc⟩ := hl
    subst hpc
    exact connsOk_run acts p (List.mem_of_find?_eq_some hp)
  · intro s cid c sid code ok hfind hsid
    constructor
    · intro hcond
      simp only [disconnectStep, hfind]
      have hps : persistSession c s.cache s.now =
          (cacheSet s.cache sid c.messageCount s.now,
           [Ev.cacheWrite sid c.messageCount]) := by
        simp only [persistSession, hsid]
        rw [if_pos hcond]
      simp [hps, List.mem_append]
    · intro hneg
      simp only [disconnectStep, hfind]
      have hps : persistSession c s.cache s.now = (s.cache, []) := by
        simp only [persistSession, hsid]
        rw [if_neg hneg]
      rw [hps]
      refine ⟨rfl, ?_⟩
      rw [List.filter_append, List.filter_append, List.filter_append]
      have hg : (goodbyeEvs cid c code ok).filter isCacheWriteEv = [] := by
        unfold goodbyeEvs
        split <;> simp [isCacheWriteEv]
      have hs2 : (stopHb (s.conns.filter (fun p => p.1 != cid)) s.tasks c).2.filter
          isCacheWriteEv = [] := by
        unfold stopHb
        by_cases he : (s.conns.filter (fun p => p.1 != cid)).isEmpty
        · cases c.hbRef with
          | none => simp [he]
          | some t => simp [he, isCacheWriteEv]
        · simp [he]
      simp [hg, hs2, isCacheWriteEv]
  · intro s cid q hshut hfind
    simp only [connectStep, hshut, Bool.false_eq_true, if_false, hfind,
      Option.isSome_none]
    simp only [acceptConn]
    split <;>
      · constructor <;>
          · simp only [lookupConn]
            rw [find?_append_right _ _ _ hfind]
            simp
  · intro cache sid v t now
    simp [cacheGet, cacheSet, List.find?_cons]

/-- Witness for the amended C2: a record written for session S1 with count 3
at time 0 is read back as 3 at time 100 and absent at time 300; a concrete
disconnect with a truthy id and count 2 writes; a disconnect with the falsy
empty session id and count 2 leaves the cache unchanged and writes nothing;
a connect seeded from a live record starts at the recorded count. -/
theorem C2_session_persistence_amended_witness :
    (cacheGet (cacheSet [] (SessionId.supplied "S1") 3 0)
        (SessionId.supplied "S1") 100 = some 3) ∧
    (cacheGet (cacheSet [] (SessionId.supplied "S1") 3 0)
        (SessionId.supplied "S1") 300 = none) ∧
    Ev.cacheWrite (SessionId.generated 3) 2 ∈
      (disconnectStep demoConnState 3 1000 true).2 ∧
    (disconnectStep ⟨0, false, 1,
        [(4, ⟨some (SessionId.supplied ""), 2, none, false⟩)],
        [], [], none, 0, 0⟩ 4 1000 true).1.cache = [] ∧
    (disconnectStep ⟨0, false, 1,
        [(4, ⟨some (SessionId.supplied ""), 2, none, false⟩)],
        [], [], none, 0, 0⟩ 4 1000 true).2.filter isCacheWriteEv = [] ∧
    (lookupConn
        (connectStep ⟨100, false, 0, [], cacheSet [] (SessionId.supplied "S1") 3 0,
          [], none, 0, 0⟩ 9 (some "S1")).1 9).map ConnSt.messageCount =
      some 3 := by
  have hfalsy := (C2_session_persistence_amended.2.1
    ⟨0, false, 1, [(4, ⟨some (SessionId.supplied ""), 2, none, false⟩)],
      [], [], none, 0, 0⟩ 4 ⟨some (SessionId.supplied ""), 2, none, false⟩
    (SessionId.supplied "") 1000 true (by decide) rfl).2 (by decide)
  refine ⟨?_, ?_, ?_, hfalsy.1, hfalsy.2, ?_⟩
  · exact (C2_session_persistence_amended.2.2.2
      [] (SessionId.supplied "S1") 3 0 100).trans (by decide)
  · exact (C2_session_persistence_amended.2.2.2
      [] (SessionId.supplied "S1") 3 0 300).trans (by decide)
  · exact ((C2_session_persistence_amended.2.1 demoConnState 3 demoConn
      (SessionId.generated 3) 1000 true (by decide) rfl).1
      ⟨rfl, by decide⟩).2
  · have h := (C2_session_persistence_amended.2.2.1
      ⟨100, false, 0, [], cacheSet [] (SessionId.supplied "S1") 3 0,
        [], none, 0, 0⟩ 9 "S1" rfl (by decide)).2
    exact h.trans (by decide)

/-- Helper: filtering a mapped list with a predicate false on the image. -/
theorem filter_map_nil {α β : Type} (l : List α) (f : α → β) (p : β → Bool)
    (h : ∀ x, p (f x) = false) : (l.map f).filter p = [] := by
  induction l with
  | nil => rfl
  | cons a l ih => simp [List.filter_cons, h, ih]

/-- Helper: the session-persist events are cache writes only. -/
theorem persistSession_filter (c : ConnSt) (cache : Cache) (now : Nat)
    (p : Ev → Bool) (hp : ∀ sid n, p (Ev.cacheWrite sid n) = false) :
    (persistSession c cache now).2.filter p = [] := by
  unfold persistSession
  cases c.sessionId with
  | none => rfl
  | some sid =>
      by_cases hc : sessionTruthy sid ∧ 0 < c.messageCount <;>
        simp [hc, List.filter_cons, hp]

/-- Helper: the goodbye events of a disconnect are goodbye frames only. -/
theorem goodbyeEvs_filter (cid : Nat) (c : ConnSt) (code : Nat) (ok : Bool)
    (p : Ev → Bool) (hp : ∀ i n b, p (Ev.goodbye i n b) = false) :
    (goodbyeEvs cid c code ok).filter p = [] := by
  unfold goodbyeEvs
  split <;> simp [List.filter_cons, hp]

/-- Helper: the heartbeat-stop events of a disconnect are cancels only. -/
theorem stopHb_filter (connsAfter : List (Nat × ConnSt))
    (tasks : List (Nat × HbTask)) (c : ConnSt) (p : Ev → Bool)
    (hp : ∀ t, p (Ev.hbCancel t) = false) :
    (stopHb connsAfter tasks c).2.filter p = [] := by
  unfold stopHb
  by_cases he : connsAfter.isEmpty
  · cases c.hbRef with
    | none => simp [he]
    | some t => simp [he, List.filter_cons, hp]
  · simp [he]

/-- Helper: one step publishes nothing — unless it is the scheduling slice of
an uncancelled heartbeat task waking from its sleep with the shutdown flag
clear, in which case it publishes exactly one `{"ts": ...}`. -/
theorem step_filter_publish (s : SysState) (a : Act) (p : Ev → Bool)
    (hp1 : ∀ cid, p (Ev.close1001 cid) = false)
    (hp2 : ∀ cid, p (Ev.accept cid) = false)
    (hp3 : ∀ sid, p (Ev.cacheRead sid) = false)
    (hp4 : ∀ sid n, p (Ev.cacheWrite sid n) = false)
    (hp5 : ∀ t, p (Ev.hbStart t) = false)
    (hp6 : ∀ t, p (Ev.hbCancel t) = false)
    (hp7 : ∀ i n b, p (Ev.goodbye i n b) = false)
    (hp8 : ∀ cid f, p (Ev.reply cid f) = false)
    (hp9 : p Ev.metricShutdown = false)
    (hp10 : p Ev.timeoutError = false)
    (hp11 : ∀ cid, p (Ev.logDisconnect cid) = false) :
    (stepAct s a).2.filter p = [] ∨
    ∃ tid st, a = Act.hbStep tid ∧ lookupTask s tid = some st ∧
      st.cancelled = false ∧ st.phase = HbPhase.sleeping ∧
      s.shutdown = false ∧ (stepAct s a).2 = [Ev.publish tid] := by
  cases a with
  | connect cid q =>
      left
      simp only [stepAct, connectStep]
      split
      · simp [List.filter_cons, hp1]
      · split
        · rfl
        · have hacc : ∀ sid cnt pre, pre.filter p = [] →
              (acceptConn s cid sid cnt pre).2.filter p = [] := by
            intro sid cnt pre hpre
            unfold acceptConn
            split <;> simp [List.filter_append, List.filter_cons, hpre,
              hp2, hp5]
          cases q with
          | some v => exact hacc _ _ _ (by simp [List.filter_cons, hp3])
          | none => exact hacc _ _ _ rfl
  | recv cid f =>
      left
      simp only [stepAct, recvStep]
      cases hf : s.conns.find? (fun p => p.1 == cid) with
      | none => rfl
      | some pc => exact filter_map_nil _ _ _ (fun x => hp8 cid x)
  | disconnect cid code ok =>
      left
      simp only [stepAct, disconnectStep]
      cases hf : s.conns.find? (fun p => p.1 == cid) with
      | none => rfl
      | some pc =>
          rw [List.filter_append, List.filter_append, List.filter_append]
          rw [persistSession_filter _ _ _ _ hp4,
            goodbyeEvs_filter _ _ _ _ _ hp7, stopHb_filter _ _ _ _ hp6]
          simp [List.filter_cons, hp11]
  | hbStep tid =>
      simp only [stepAct, hbStepFn]
      cases hf : lookupTask s tid with
      | none => left; rfl
      | some st =>
          by_cases hc : st.cancelled = true
          · left; simp [hc]
          · simp only [Bool.not_eq_true] at hc
            cases hph : st.phase with
            | exited => left; simp [hc, hph]
            | loopTop =>
                left
                simp only [hc, hph, Bool.false_eq_true, if_false]
                split <;> rfl
            | sleeping =>
                by_cases hs : s.shutdown = true
                · left; simp [hc, hph, hs]
                · right
                  simp only [Bool.not_eq_true] at hs
                  exact ⟨tid, st, rfl, hf, hc, hph, hs, by simp [hc, hph, hs]⟩
  | shutdown b =>
      left
      simp only [stepAct, gracefulShutdownStep]
      rw [List.filter_append, List.filter_append, List.filter_append]
      have h1 : (match (s.clsHbTask : Option Nat) with
          | some t => (cancelTask s.tasks t, [Ev.hbCancel t])
          | none => (s.tasks, [])).2.filter p = [] := by
        cases s.clsHbTask with
        | none => rfl
        | some t => simp [List.filter_cons, hp6]
      rw [h1,
        filter_map_nil s.conns (fun q => Ev.goodbye q.1 q.2.messageCount true)
          p (fun x => hp7 _ _ _),
        filter_map_nil s.conns (fun q => Ev.close1001 q.1) p (fun x => hp1 _)]
      have h3 : (if s.conns.isEmpty then [Ev.metricShutdown]
          else if b then [Ev.metricShutdown] else [Ev.timeoutError]).filter
            p = [] := by
        split
        · simp [List.filter_cons, hp9]
        · split <;> simp [List.filter_cons, hp9, hp10]
      simp only [List.nil_append]
      exact h3
  | tick dt => left; rfl

/-- Helper: the shutdown flag is monotone — set exactly once, never reset. -/
theorem step_shutdown_mono (s : SysState) (a : Act) (h : s.shutdown = true) :
    (stepAct s a).1.shutdown = true := by
  cases a with
  | connect cid q =>
      simp only [stepAct, connectStep, h, if_true]
  | recv cid f =>
      simp only [stepAct, recvStep]
      cases hf : s.conns.find? (fun p => p.1 == cid) <;> simp [h]
  | disconnect cid code ok =>
      simp only [stepAct, disconnectStep]
      cases hf : s.conns.find? (fun p => p.1 == cid) <;> simp [h]
  | hbStep tid =>
      simp only [stepAct, hbStepFn]
      cases hf : lookupTask s tid with
      | none => exact h
      | some st =>
          by_cases hc : st.cancelled = true
          · simp [hc, h]
          · simp only [Bool.not_eq_true] at hc
            cases hph : st.phase <;> simp only [hc, hph, Bool.false_eq_true,
              if_false] <;> first
              | exact h
              | (split <;> simp [h])
  | shutdown b => rfl
  | tick dt => exact h

/-- Helper: with the shutdown flag set, one step leaves the heartbeat
counter untouched (the only increment sits behind the line-209 re-check). -/
theorem step_hbCount_shutdown (s : SysState) (a : Act) (h : s.shutdown = true) :
    (stepAct s a).1.hbCount = s.hbCount := by
  cases a with
  | connect cid q =>
      simp only [stepAct, connectStep, h, if_true]
  | recv cid f =>
      simp only [stepAct, recvStep]
      cases hf : s.conns.find? (fun p => p.1 == cid) <;> simp
  | disconnect cid code ok =>
      simp only [stepAct, disconnectStep]
      cases hf : s.conns.find? (fun p => p.1 == cid) <;> simp
  | hbStep tid =>
      simp only [stepAct, hbStepFn]
      cases hf : lookupTask s tid with
      | none => rfl
      | some st =>
          by_cases hc : st.cancelled = true
          · simp [hc]
          · simp only [Bool.not_eq_true] at hc
            cases hph : st.phase <;> simp only [hc, hph, Bool.false_eq_true,
              if_false] <;> first
              | rfl
              | (split <;> simp [h]; try simp_all)
  | shutdown b => rfl
  | tick dt => rfl

/-- Helper: from a state with the shutdown flag set, no run ever publishes a
heartbeat and the heartbeat counter never moves. -/
theorem runActs_shutdown_no_publish (s : SysState) (acts : List Act)
    (h : s.shutdown = true) :
    (runActs s acts).2.filter isPublishEv = [] ∧
    (runActs s acts).1.hbCount = s.hbCount := by
  induction acts generalizing s with
  | nil => exact ⟨rfl, rfl⟩
  | cons a acts ih =>
      have hstep : (stepAct s a).2.filter isPublishEv = [] := by
        rcases step_filter_publish s a isPublishEv
          (fun _ => rfl) (fun _ => rfl) (fun _ => rfl) (fun _ _ => rfl)
          (fun _ => rfl) (fun _ => rfl) (fun _ _ _ => rfl) (fun _ _ => rfl)
          rfl rfl (fun _ => rfl) with h1 | ⟨tid, st, _, _, _, _, hs, _⟩
        · exact h1
        · rw [h] at hs; cases hs
      have ih2 := ih (stepAct s a).1 (step_shutdown_mono s a h)
      refine ⟨?_, ?_⟩
      · simp only [runActs, List.filter_append, hstep, ih2.1, List.nil_append]
      · rw [runActs]
        exact ih2.2.trans (step_hbCount_shutdown s a h)

/-- Helper: `find?` through `updateTask` — keys are preserved, the found
entry is mapped. -/
theorem updateTask_find? (l : List (Nat × HbTask)) (u tid : Nat)
    (f : HbTask → HbTask) :
    (updateTask l u f).find? (fun p => p.1 == tid) =
      (l.find? (fun p => p.1 == tid)).map
        (fun p => if p.1 == u then (p.1, f p.2) else p) := by
  induction l with
  | nil => rfl
  | cons a l ih =>
      simp only [updateTask, List.map_cons] at ih ⊢
      have hkey : ((if (a.1 == u) = true then (a.1, f a.2) else a) :
          Nat × HbTask).1 = a.1 := by split <;> rfl
      simp only [List.find?_cons, hkey]
      cases h : (a.1 == tid)
      · simp only [h]
        exact ih
      · simp only [h]
        rfl

/-- Helper: `taskCancelled` characterised through `find?`. -/
theorem taskCancelled_iff (s : SysState) (tid : Nat) :
    taskCancelled s tid = true ↔
      ∃ p, s.tasks.find? (fun q => q.1 == tid) = some p ∧
        p.2.cancelled = true := by
  unfold taskCancelled lookupTask
  cases h : s.tasks.find? (fun q => q.1 == tid) <;> simp [h]

/-- Helper: a cancelled entry survives `updateTask` by a cancel-preserving
update. -/
theorem cancelled_find?_updateTask (l : List (Nat × HbTask)) (u tid : Nat)
    (f : HbTask → HbTask)
    (hf : ∀ st, st.cancelled = true → (f st).cancelled = true)
    (p : Nat × HbTask) (hp : l.find? (fun q => q.1 == tid) = some p)
    (hc : p.2.cancelled = true) :
    ∃ p', (updateTask l u f).find? (fun q => q.1 == tid) = some p' ∧
      p'.2.cancelled = true := by
  rw [updateTask_find?, hp]
  by_cases hu : (p.1 == u) = true
  · exact ⟨(p.1, f p.2), by rw [Option.map_some']; rw [if_pos hu], hf _ hc⟩
  · exact ⟨p, by rw [Option.map_some']; rw [if_neg hu], hc⟩

/-- Helper: a cancelled task stays cancelled across any step — nothing in
the source ever clears a cancellation, and new heartbeat tasks are appended
behind existing entries. -/
theorem step_cancelled_mono (s : SysState) (a : Act) (tid : Nat)
    (h : taskCancelled s tid = true) :
    taskCancelled (stepAct s a).1 tid = true := by
  rw [taskCancelled_iff] at h
  obtain ⟨p, hp, hc⟩ := h
  rw [taskCancelled_iff]
  cases a with
  | connect cid q =>
      simp only [stepAct, connectStep]
      split
      · exact ⟨p, hp, hc⟩
      · split
        · exact ⟨p, hp, hc⟩
        · have hacc : ∀ sid cnt pre,
              ∃ p', ((acceptConn s cid sid cnt pre).1).tasks.find?
                  (fun q => q.1 == tid) = some p' ∧ p'.2.cancelled = true := by
            intro sid cnt pre
            unfold acceptConn
            split
            · exact ⟨p, find?_append_left _ _ _ _ hp, hc⟩
            · exact ⟨p, hp, hc⟩
          cases q with
          | some v => exact hacc _ _ _
          | none => exact hacc _ _ _
  | recv cid f =>
      simp only [stepAct, recvStep]
      cases hf : s.conns.find? (fun q => q.1 == cid) with
      | none => exact ⟨p, hp, hc⟩
      | some pc => exact ⟨p, hp, hc⟩
  | disconnect cid code ok =>
      simp only [stepAct, disconnectStep]
      cases hf : s.conns.find? (fun q => q.1 == cid) with
      | none => exact ⟨p, hp, hc⟩
      | some pc =>
          show ∃ p', (stopHb (s.conns.filter (fun q => q.1 != cid))
              s.tasks pc.2).1.find? (fun q => q.1 == tid) = some p' ∧
              p'.2.cancelled = true
          unfold stopHb
          by_cases he : (s.conns.filter (fun q => q.1 != cid)).isEmpty = true
          · simp only [he, if_true]
            cases hr : pc.2.hbRef with
            | none => exact ⟨p, hp, hc⟩
            | some t =>
                exact cancelled_find?_updateTask s.tasks t tid
                  (fun st => ⟨st.phase, true⟩) (fun st _ => rfl) p hp hc
          · simp only [he, if_false]
            exact ⟨p, hp, hc⟩
  | hbStep tid' =>
      simp only [stepAct, hbStepFn]
      have hset : ∀ ph, ∃ p', (setPhase s.tasks tid' ph).find?
          (fun q => q.1 == tid) = some p' ∧ p'.2.cancelled = true :=
        fun ph => cancelled_find?_updateTask s.tasks tid' tid
          (fun st => ⟨ph, st.cancelled⟩) (fun st hst => hst) p hp hc
      cases hf : lookupTask s tid' with
      | none => exact ⟨p, hp, hc⟩
      | some st =>
          by_cases hcc : st.cancelled = true
          · simp only [hcc, if_true]
            exact hset _
          · simp only [Bool.not_eq_true] at hcc
            cases hph : st.phase <;>
              simp only [hcc, hph, Bool.false_eq_true, if_false]
            · split
              · exact hset _
              · exact hset _
            · split
              · exact hset _
              · exact hset _
            · exact ⟨p, hp, hc⟩
  | shutdown b =>
      simp only [stepAct, gracefulShutdownStep]
      cases hcls : s.clsHbTask with
      | none => exact ⟨p, hp, hc⟩
      | some t =>
          exact cancelled_find?_updateTask s.tasks t tid
            (fun st => ⟨st.phase, true⟩) (fun st _ => rfl) p hp hc
  | tick dt => exact ⟨p, hp, hc⟩

/-- Helper: while task `tid` is cancelled, no step emits `publish tid`. -/
theorem step_no_publish_cancelled (s : SysState) (a : Act) (tid : Nat)
    (h : taskCancelled s tid = true) :
    (stepAct s a).2.filter (fun e => e == Ev.publish tid) = [] := by
  rcases step_filter_publish s a (fun e => e == Ev.publish tid)
      (fun _ => by simp) (fun _ => by simp) (fun _ => by simp)
      (fun _ _ => by simp) (fun _ => by simp) (fun _ => by simp)
      (fun _ _ _ => by simp) (fun _ _ => by simp) (by simp) (by simp)
      (fun _ => by simp)
    with h1 | ⟨tid', st, ha, hl, hcnc, hph, hs, hev⟩
  · exact h1
  · rw [hev]
    by_cases he : tid' = tid
    · subst he
      unfold taskCancelled at h
      rw [hl] at h
      simp [hcnc] at h
    · simp [List.filter_cons, he]

/-- Helper: once task `tid` is cancelled, no run from that state ever emits
`publish tid`. -/
theorem runActs_cancelled_no_publish (s : SysState) (tid : Nat)
    (acts : List Act) (h : taskCancelled s tid = true) :
    (runActs s acts).2.filter (fun e => e == Ev.publish tid) = [] := by
  induction acts generalizing s with
  | nil => rfl
  | cons a acts ih =>
      simp only [runActs, List.filter_append,
        step_no_publish_cancelled s a tid h,
        ih _ (step_cancelled_mono s a tid h), List.nil_append]

/-- Claim C6: no heartbeat payload `{"ts": ...}` is ever published (and the
heartbeat counter never incremented) after the shutdown flag is set — the
line-209 re-check is atomic with the publish, and the flag is monotone; and
a cancellation delivered while the loop sits in its 30-second
`asyncio.sleep` makes the task's next scheduling slice exit immediately —
no event, phase `exited` — and no future step of any schedule ever
publishes on that task's behalf. -/
theorem C6_no_publish_after_stop :
    (∀ (s : SysState) (acts : List Act), s.shutdown = true →
        (runActs s acts).2.filter isPublishEv = [] ∧
        (runActs s acts).1.hbCount = s.hbCount) ∧
    (∀ (s : SysState) (tid : Nat),
        lookupTask s tid = some ⟨HbPhase.sleeping, true⟩ →
        ((hbStepFn s tid).2 = [] ∧
         lookupTask (hbStepFn s tid).1 tid = some ⟨HbPhase.exited, true⟩ ∧
         ∀ acts : List Act,
           (runActs s acts).2.filter (fun e => e == Ev.publish tid) = [])) := by
  constructor
  · exact runActs_shutdown_no_publish
  · intro s tid h
    have hcanc : taskCancelled s tid = true := by
      unfold taskCancelled
      rw [h]
    obtain ⟨p, hp, hpc⟩ := (taskCancelled_iff s tid).mp hcanc
    refine ⟨?_, ?_, fun acts => runActs_cancelled_no_publish s tid acts hcanc⟩
    · simp only [hbStepFn, h]
      have : (⟨HbPhase.sleeping, true⟩ : HbTask).cancelled = true := rfl
      simp [this]
    · have hkey : (p.1 == tid) = true := by
        have := List.find?_some hp
        simpa using this
      have hp2 : p.2 = ⟨HbPhase.sleeping, true⟩ := by
        unfold lookupTask at h
        rw [hp] at h
        simpa using h
      simp only [hbStepFn, h]
      have hc : (⟨HbPhase.sleeping, true⟩ : HbTask).cancelled = true := rfl
      simp only [hc, if_true]
      have hkeq : p.1 = tid := by simpa using hkey
      unfold lookupTask setPhase
      rw [updateTask_find?, hp]
      simp [hkeq, hp2]

/-- Witness for C6: from a shutdown-mode state a connect attempt and a
heartbeat slice publish nothing; a task cancelled mid-sleep exits its next
slice silently and no later schedule publishes for it. -/
theorem C6_no_publish_after_stop_witness :
    (runActs demoShutdownState [Act.connect 5 none, Act.hbStep 0]).2.filter
        isPublishEv = [] ∧
    (hbStepFn demoCancelledState 0).2 = [] ∧
    lookupTask (hbStepFn demoCancelledState 0).1 0 =
      some ⟨HbPhase.exited, true⟩ ∧
    (runActs demoCancelledState
        [Act.hbStep 0, Act.connect 9 none, Act.hbStep 0]).2.filter
        (fun e => e == Ev.publish 0) = [] := by
  have h1 := (C6_no_publish_after_stop.1 demoShutdownState
    [Act.connect 5 none, Act.hbStep 0] rfl).1
  have h2 := C6_no_publish_after_stop.2 demoCancelledState 0 rfl
  exact ⟨h1, h2.1, h2.2.1,
    h2.2.2 [Act.hbStep 0, Act.connect 9 none, Act.hbStep 0]⟩
